import Mathlib

/-!
Verification of the bulk asynchronous toxicity-classification orchestrator
in `app/gemini_api.py` (payload encoder `create_jsonl_content`, job poller
loop of `run_google_batch_process`, result reconciler `parse_results`, and
the `/analyze-batch` endpoint `analyze_batch_endpoint`).

The Python code is shallowly embedded: JSON values are an inductive type,
`json.loads` is a small executable parser, Python dictionaries are
association lists with Python's insert/update semantics, exceptions are
`Except String`, and the external Google client calls (upload, job status,
download) are oracles passed in as explicit arguments.
-/

namespace GeminiApi

/-- JSON values as produced by Python's `json.loads`.  `null` doubles as
Python `None` (which is exactly what `json.loads` returns for JSON null).
Numbers are modelled as integers; no claim depends on fractional values
(the one fractional literal in the source, `temperature: 0.0`, denotes the
integer-valued number zero and is modelled as `num 0`). -/
inductive Json where
  | null : Json
  | bool : Bool → Json
  | num : Int → Json
  | str : String → Json
  | arr : List Json → Json
  | obj : List (String × Json) → Json

mutual

/-- Structural equality of JSON values (Python `==` on the values
`json.loads` returns). -/
def jsonBeq : Json → Json → Bool
  | .null, .null => true
  | .bool a, .bool b => a == b
  | .num a, .num b => a == b
  | .str a, .str b => a == b
  | .arr xs, .arr ys => jsonBeqList xs ys
  | .obj xs, .obj ys => jsonBeqFields xs ys
  | _, _ => false

/-- Elementwise equality of JSON arrays. -/
def jsonBeqList : List Json → List Json → Bool
  | [], [] => true
  | x :: xs, y :: ys => jsonBeq x y && jsonBeqList xs ys
  | _, _ => false

/-- Fieldwise equality of JSON objects (Python dict equality is
order-insensitive, but every comparison in this development is between
values built by the same code path, so fieldwise equality coincides). -/
def jsonBeqFields : List (String × Json) → List (String × Json) → Bool
  | [], [] => true
  | (k, v) :: xs, (k', v') :: ys => k == k' && jsonBeq v v' && jsonBeqFields xs ys
  | _, _ => false

end

/-- The left brace character, written by code point to keep it out of
string literals. -/
def lbrace : Char := Char.ofNat 123

/-- The right brace character. -/
def rbrace : Char := Char.ofNat 125

/-- The double-quote character. -/
def dquote : Char := Char.ofNat 34

/-- The backslash character. -/
def bslash : Char := Char.ofNat 92

/-- The single-quote character (used by Python `repr`). -/
def squote : Char := Char.ofNat 39

/-- Drop leading whitespace characters. -/
def skipWs : List Char → List Char
  | [] => []
  | c :: cs => if c.isWhitespace then skipWs cs else c :: cs

/-- Drop leading and trailing whitespace, Python `str.strip()`. -/
def trimChars (cs : List Char) : List Char :=
  ((skipWs cs).reverse |> skipWs).reverse

/-- Split a character list on newline characters, Python `str.split` with
separator `"\n"` (so an empty input yields one empty field). -/
def splitOnNl : List Char → List (List Char)
  | [] => [[]]
  | c :: cs =>
    let r := splitOnNl cs
    if c = '\n' then [] :: r
    else
      match r with
      | [] => [[c]]
      | l :: ls => (c :: l) :: ls

/-- Does `pat` occur at the start of `cs`?  If so return the rest. -/
def matchStart : List Char → List Char → Option (List Char)
  | [], cs => some cs
  | _ :: _, [] => none
  | p :: ps, c :: cs => if p = c then matchStart ps cs else none

/-- Does `pat` occur anywhere in `cs` (Python `pat in s` on strings)? -/
def hasSub (pat : List Char) : List Char → Bool
  | [] => pat.isEmpty
  | c :: cs => (matchStart pat (c :: cs)).isSome || hasSub pat cs

/-- Python `str.replace old new`: replace every non-overlapping occurrence
of `old` (assumed non-empty) left to right.  Fuel-driven for structural
termination. -/
def replaceFuel (old new : List Char) : Nat → List Char → List Char
  | 0, cs => cs
  | _ + 1, [] => []
  | fuel + 1, c :: cs =>
    match matchStart old (c :: cs) with
    | some rest => new ++ replaceFuel old new fuel rest
    | none => c :: replaceFuel old new fuel cs

/-- Python `str.replace` on character lists. -/
def replaceChars (cs old new : List Char) : List Char :=
  if old.isEmpty then cs else replaceFuel old new (cs.length + 1) cs

/-! ## A small JSON parser (Python `json.loads`)

Supports null, booleans, integer numerals, strings with the common
escapes, arrays and objects — every construct the repository's documents
use.  Fuel-driven so that it is structurally recursive and reduces inside
the kernel. -/

/-- Parse the body of a JSON string after the opening quote; returns the
decoded characters and the input after the closing quote. -/
def parseStringBody : Nat → List Char → Option (List Char × List Char)
  | 0, _ => none
  | _ + 1, [] => none
  | fuel + 1, c :: cs =>
    if c = dquote then some ([], cs)
    else if c = bslash then
      match cs with
      | [] => none
      | e :: cs' =>
        let dec : Option Char :=
          if e = dquote then some dquote
          else if e = bslash then some bslash
          else if e = '/' then some '/'
          else if e = 'n' then some '\n'
          else if e = 't' then some '\t'
          else if e = 'r' then some '\r'
          else none
        match dec with
        | none => none
        | some d =>
          match parseStringBody fuel cs' with
          | none => none
          | some (body, rest) => some (d :: body, rest)
    else
      match parseStringBody fuel cs with
      | none => none
      | some (body, rest) => some (c :: body, rest)

/-- Parse a run of decimal digits into a natural number (most significant
first), returning the value and the rest.  Fails on an empty run. -/
def parseDigits : List Char → Option (Nat × List Char)
  | [] => none
  | c :: cs =>
    if c.isDigit then
      let rec go (acc : Nat) : List Char → Nat × List Char
        | [] => (acc, [])
        | d :: ds => if d.isDigit then go (acc * 10 + (d.toNat - 48)) ds else (acc, d :: ds)
      some (go (c.toNat - 48) cs)
    else none

mutual

/-- Parse one JSON value. -/
def parseJv : Nat → List Char → Option (Json × List Char)
  | 0, _ => none
  | fuel + 1, cs =>
    match skipWs cs with
    | [] => none
    | c :: cs' =>
      if c = dquote then
        match parseStringBody (fuel + 1) cs' with
        | none => none
        | some (body, rest) => some (.str (String.mk body), rest)
      else if c = lbrace then parseObjFields fuel cs' true
      else if c = '[' then parseArrElems fuel cs' true
      else if c = '-' then
        match parseDigits cs' with
        | none => none
        | some (n, rest) =>
          match rest with
          | d :: _ => if d = '.' then none else some (.num (-(n : Int)), rest)
          | [] => some (.num (-(n : Int)), rest)
      else if c.isDigit then
        match parseDigits (c :: cs') with
        | none => none
        | some (n, rest) =>
          match rest with
          | d :: _ => if d = '.' then none else some (.num (n : Int), rest)
          | [] => some (.num (n : Int), rest)
      else
        match matchStart "null".data (c :: cs') with
        | some rest => some (.null, rest)
        | none =>
          match matchStart "true".data (c :: cs') with
          | some rest => some (.bool true, rest)
          | none =>
            match matchStart "false".data (c :: cs') with
            | some rest => some (.bool false, rest)
            | none => none

/-- Parse array elements after `[`; `first` is true before any element. -/
def parseArrElems : Nat → List Char → Bool → Option (Json × List Char)
  | 0, _, _ => none
  | fuel + 1, cs, first =>
    match skipWs cs with
    | [] => none
    | c :: cs' =>
      if c = ']' ∧ first then some (.arr [], cs')
      else
        match parseJv fuel (c :: cs') with
        | none => none
        | some (v, rest) =>
          match skipWs rest with
          | ']' :: rest' => some (.arr [v], rest')
          | ',' :: rest' =>
            match parseArrElems fuel rest' false with
            | some (.arr vs, rest'') => some (.arr (v :: vs), rest'')
            | _ => none
          | _ => none

/-- Parse object fields after the opening brace; `first` is true before
any field. -/
def parseObjFields : Nat → List Char → Bool → Option (Json × List Char)
  | 0, _, _ => none
  | fuel + 1, cs, first =>
    match skipWs cs with
    | [] => none
    | c :: cs' =>
      if c = rbrace ∧ first then some (.obj [], cs')
      else if c = dquote then
        match parseStringBody (fuel + 1) cs' with
        | none => none
        | some (key, rest) =>
          match skipWs rest with
          | ':' :: rest' =>
            match parseJv fuel rest' with
            | none => none
            | some (v, rest'') =>
              match skipWs rest'' with
              | c'' :: rest''' =>
                if c'' = rbrace then some (.obj [(String.mk key, v)], rest''')
                else if c'' = ',' then
                  match parseObjFields fuel rest''' false with
                  | some (.obj fs, r) => some (.obj ((String.mk key, v) :: fs), r)
                  | _ => none
                else none
              | [] => none
          | _ => none
      else none

end

/-- Python `json.loads` on a character list: parse one value, allowing
only trailing whitespace. -/
def jsonLoadsChars (cs : List Char) : Option Json :=
  match parseJv (4 * cs.length + 8) cs with
  | none => none
  | some (j, rest) => if (skipWs rest).isEmpty then some j else none

/-- Python `json.loads` on a string. -/
def jsonLoads (s : String) : Option Json :=
  jsonLoadsChars s.data

/-! ## A JSON printer (used to build concrete documents in statements) -/

/-- Escape a string for inclusion in a JSON document. -/
def escapeChars : List Char → List Char
  | [] => []
  | c :: cs =>
    if c = dquote then bslash :: dquote :: escapeChars cs
    else if c = bslash then bslash :: bslash :: escapeChars cs
    else if c = '\n' then bslash :: 'n' :: escapeChars cs
    else c :: escapeChars cs

mutual

/-- Render a JSON value as a document string (character list). -/
def dumpJv : Json → List Char
  | .null => "null".data
  | .bool b => (cond b "true" "false").data
  | .num n => (toString n).data
  | .str s => dquote :: escapeChars s.data ++ [dquote]
  | .arr vs => '[' :: dumpArr vs ++ [']']
  | .obj fs => lbrace :: dumpObj fs ++ [rbrace]

/-- Render array elements, comma separated. -/
def dumpArr : List Json → List Char
  | [] => []
  | [v] => dumpJv v
  | v :: vs => dumpJv v ++ ',' :: ' ' :: dumpArr vs

/-- Render object fields, comma separated. -/
def dumpObj : List (String × Json) → List Char
  | [] => []
  | [(k, v)] => dquote :: escapeChars k.data ++ dquote :: ':' :: ' ' :: dumpJv v
  | (k, v) :: fs =>
    dquote :: escapeChars k.data ++ dquote :: ':' :: ' ' :: dumpJv v ++ ',' :: ' ' :: dumpObj fs

end

/-- Python `json.dumps` (modulo whitespace choices). -/
def jsonDump (j : Json) : String := String.mk (dumpJv j)

/-! ## Python value semantics

Helpers mirroring the Python operations `parse_results` applies to the
values `json.loads` returns.  A Python exception is `Except.error` with
the exception's `str(e)` text (the exact text of library exception
messages is abstracted to a fixed descriptive string per exception kind;
no claim depends on those texts). -/

/-- Python truthiness of a `json.loads` value: `None`, `False`, `0`, `""`,
`[]` and `{}` are falsy, everything else truthy. -/
def truthy : Json → Bool
  | .null => false
  | .bool b => b
  | .num n => n != 0
  | .str s => !s.isEmpty
  | .arr xs => !xs.isEmpty
  | .obj fs => !fs.isEmpty

/-- First-match lookup in a JSON object's field list (`json.loads` never
produces duplicate keys, so first-match agrees with the Python dict). -/
def jlookup (fields : List (String × Json)) (k : String) : Option Json :=
  match fields with
  | [] => none
  | (k', v) :: rest => if k' = k then some v else jlookup rest k

/-- Python `d.get(k)` on a decoded JSON value: `None` when the key is
absent, `AttributeError` when the value is not a dict.  An absent key and
a stored JSON null both come back as Python `None`, i.e. `Json.null`. -/
def pyGet (j : Json) (k : String) : Except String Json :=
  match j with
  | .obj fields => .ok ((jlookup fields k).getD .null)
  | _ => .error "AttributeError: object has no attribute get"

/-- Python `d.get(k, default)`: the default only when the key is absent. -/
def pyGetD (j : Json) (k : String) (default : Json) : Except String Json :=
  match j with
  | .obj fields => .ok ((jlookup fields k).getD default)
  | _ => .error "AttributeError: object has no attribute get"

/-- Python `x[0]`: first element of a list, first character of a string,
`TypeError`/`KeyError` otherwise (all call sites guard with truthiness, so
the empty cases are unreachable there). -/
def pyIndex0 : Json → Except String Json
  | .arr (x :: _) => .ok x
  | .arr [] => .error "IndexError: list index out of range"
  | .str s =>
    match s.data with
    | c :: _ => .ok (.str (String.mk [c]))
    | [] => .error "IndexError: string index out of range"
  | _ => .error "TypeError: object is not subscriptable"

mutual

/-- Python `repr` of a decoded JSON value (containers print their
elements with `repr`; strings get single quotes). -/
def pyRepr : Json → String
  | .null => "None"
  | .bool true => "True"
  | .bool false => "False"
  | .num n => toString n
  | .str s => String.mk (squote :: s.data ++ [squote])
  | .arr xs => "[" ++ pyReprList xs ++ "]"
  | .obj fs => String.mk [lbrace] ++ pyReprFields fs ++ String.mk [rbrace]

/-- Comma-separated `repr`s of list elements. -/
def pyReprList : List Json → String
  | [] => ""
  | [x] => pyRepr x
  | x :: xs => pyRepr x ++ ", " ++ pyReprList xs

/-- Comma-separated `repr`s of dict items. -/
def pyReprFields : List (String × Json) → String
  | [] => ""
  | [(k, v)] => String.mk (squote :: k.data ++ [squote]) ++ ": " ++ pyRepr v
  | (k, v) :: fs =>
    String.mk (squote :: k.data ++ [squote]) ++ ": " ++ pyRepr v ++ ", " ++ pyReprFields fs

end

/-- Python `str(x)` on a decoded JSON value: identity on strings, `repr`
recursively inside containers. -/
def pyStr : Json → String
  | .str s => s
  | j => pyRepr j

/-- Python `"error" in x`: key membership for dicts, element membership
for lists, substring test for strings, `TypeError` otherwise. -/
def pyInError : Json → Except String Bool
  | .obj fields => .ok (fields.any (fun f => f.1 = "error"))
  | .arr xs => .ok (xs.any (fun x => jsonBeq x (.str "error")))
  | .str s => .ok (hasSub "error".data s.data)
  | _ => .error "TypeError: argument is not iterable"

/-! ## Data model (the pydantic classes) -/

/-- `CommentInput`: one input comment, `{id, text}`. -/
structure CommentInput where
  id : String
  text : String
deriving Repr, DecidableEq

/-- `AnalyzedComment`: one reconciled output record.  The `analysis`
field carries the decoded per-item result payload (the dict pydantic
receives for its `ToxicityAnalysis` field). -/
structure AnalyzedComment where
  id : String
  text : String
  analysis : Option Json := none
  error : Option String := none

/-- `BatchResponse`: the endpoint's success payload. -/
structure BatchResponse where
  results : List AnalyzedComment
  total_processed : Nat
  status : String

/-! ## The results map built by the parsing loop of `parse_results`

`results_map: Dict[str, Any]` keyed by whatever `item.get("custom_id")`
returned (a decoded JSON value; `Json.null` is Python `None`). -/

/-- Python dict assignment `m[k] = v`: update in place if the key is
present, append otherwise. -/
def rmapSet (m : List (Json × Json)) (k : Json) (v : Json) : List (Json × Json) :=
  match m with
  | [] => [(k, v)]
  | (k', v') :: rest => if jsonBeq k' k then (k', v) :: rest else (k', v') :: rmapSet rest k v

/-- Python `results_map.get(cid)` collapsed to a JSON value: `Json.null`
(Python `None`) when the key is absent. -/
def rmapGet (m : List (Json × Json)) (k : Json) : Json :=
  match m with
  | [] => .null
  | (k', v) :: rest => if jsonBeq k' k then v else rmapGet rest k

/-- The message of a `json.JSONDecodeError` (text abstracted). -/
def jsonDecodeErrorMsg : String := "JSONDecodeError: Expecting value"

/-- The message of the `UnboundLocalError` raised when the `except`
handler of the parsing loop reads `custom_id` before any line assigned
it (text abstracted). -/
def unboundLocalMsg : String :=
  "UnboundLocalError: cannot access local variable custom_id where it is not associated with a value"

/-- Outcome of the `try` body of the parsing loop on one line. -/
inductive LineOutcome where
  | store : Json → Json → LineOutcome
  | raiseBefore : String → LineOutcome
  | raiseAfter : Json → String → LineOutcome

/-- The part of the `try` body after `custom_id` has been assigned:
navigate `response.candidates[0].content.parts[0].text`, strip markdown
fencing, parse the embedded JSON; or extract the backend error.  Returns
the value stored into `results_map[custom_id]`. -/
def tryBodyAfterCid (item : Json) : Except String Json := do
  let responseData ← pyGetD item "response" (.obj [])
  let candidates ← pyGetD responseData "candidates" (.arr [])
  if truthy candidates then
    let c0 ← pyIndex0 candidates
    let content ← pyGetD c0 "content" (.obj [])
    let parts ← pyGetD content "parts" (.arr [])
    if truthy parts then
      let p0 ← pyIndex0 parts
      let rawVal ← pyGetD p0 "text" (.str (String.mk [lbrace, rbrace]))
      match rawVal with
      | .str raw =>
        let cleaned := trimChars
          (replaceChars (replaceChars raw.data "```json".data []) "```".data [])
        match jsonLoadsChars cleaned with
        | some analysisData => pure analysisData
        | none => throw jsonDecodeErrorMsg
      | _ => throw "AttributeError: object has no attribute replace"
    else
      pure (.obj [("error", .str "Empty parts in response")])
  else
    let errorInfo ← pyGetD responseData "error" (.str "No candidates returned")
    pure (.obj [("error", .str (pyStr errorInfo))])

/-- The whole `try` body on one (non-empty) line of the output document,
recording whether a raise happened before or after the assignment to
`custom_id`. -/
def processLine (line : List Char) : LineOutcome :=
  match jsonLoadsChars line with
  | none => .raiseBefore jsonDecodeErrorMsg
  | some item =>
    match pyGet item "custom_id" with
    | .error m => .raiseBefore m
    | .ok cid =>
      match tryBodyAfterCid item with
      | .ok v => .store cid v
      | .error m => .raiseAfter cid m

/-- State of the parsing loop: the results map and the Python local
variable `custom_id` (`none` while still unbound). -/
structure ParseState where
  rmap : List (Json × Json)
  customId : Option Json

/-- One iteration of `for line in text_content.strip().split("\n")`,
including the `except` handler: a raise is caught, and the handler stores
`{"error": str(e)}` under the current value of `custom_id` — which is the
*previous* line's id when the raise happened before this line's
assignment, and is unbound (→ `UnboundLocalError` escapes) when no line
has assigned it yet. -/
def stepLine (st : ParseState) (line : List Char) : Except String ParseState :=
  if line.isEmpty then .ok st
  else
    match processLine line with
    | .store cid v => .ok ⟨rmapSet st.rmap cid v, some cid⟩
    | .raiseAfter cid m =>
      if truthy cid then
        .ok ⟨rmapSet st.rmap cid (.obj [("error", .str m)]), some cid⟩
      else .ok ⟨st.rmap, some cid⟩
    | .raiseBefore m =>
      match st.customId with
      | none => .error unboundLocalMsg
      | some prev =>
        if truthy prev then
          .ok ⟨rmapSet st.rmap prev (.obj [("error", .str m)]), some prev⟩
        else .ok st

/-- Run the parsing loop over all lines. -/
def runLines : List (List Char) → ParseState → Except String ParseState
  | [], st => .ok st
  | l :: ls, st =>
    match stepLine st l with
    | .error m => .error m
    | .ok st' => runLines ls st'

/-- `text_content.strip().split("\n")` of the downloaded document. -/
def docLines (text : String) : List (List Char) :=
  splitOnNl (trimChars text.data)

/-- Phase 1 of `parse_results`: build `results_map` from the output
document's text. -/
def buildResultsMap (text : String) : Except String ParseState :=
  runLines (docLines text) ⟨[], none⟩

/-- The sentinel used when an input id has no usable entry in
`results_map`. -/
def noResultMsg : String := "No result found (Job failed or ID mismatch)"

/-- The body of one step of the merge loop of `parse_results`, given the
value `analysis = results_map.get(cid)` (with `Json.null` for a missing
key): `if analysis and "error" not in analysis:` succeed, else build the
error record. -/
def mergeValue (analysis : Json) (cid text : String) : Except String AnalyzedComment :=
  if truthy analysis then
    match pyInError analysis with
    | .error m => .error m
    | .ok hasErr =>
      if hasErr then
        match pyGet analysis "error" with
        | .error m => .error m
        | .ok ev => .ok ⟨cid, text, none, some (pyStr ev)⟩
      else .ok ⟨cid, text, some analysis, none⟩
  else .ok ⟨cid, text, none, some noResultMsg⟩

/-- One step of the merge loop of `parse_results`: produce the
`AnalyzedComment` for input id `cid` with original text `text`. -/
def mergeOne (rm : List (Json × Json)) (cid text : String) : Except String AnalyzedComment :=
  mergeValue (rmapGet rm (.str cid)) cid text

/-- The merge loop of `parse_results`: walk `original_map.items()` in
order. -/
def mergeAll (rm : List (Json × Json)) : List (String × String) → Except String (List AnalyzedComment)
  | [] => .ok []
  | (cid, text) :: rest =>
    match mergeOne rm cid text with
    | .error m => .error m
    | .ok item =>
      match mergeAll rm rest with
      | .error m => .error m
      | .ok items => .ok (item :: items)

/-- `parse_results`: reconcile the downloaded output document's text with
the original id → text map (the download itself is performed by the
caller's fetch oracle in this model). -/
def parse_results (textContent : String) (originalMap : List (String × String)) :
    Except String (List AnalyzedComment) :=
  match buildResultsMap textContent with
  | .error m => .error m
  | .ok st => mergeAll st.rmap originalMap

/-! ## Payload encoder: `create_jsonl_content` -/

/-- The pinned model identifier. -/
def MODEL_ID : String := "gemini-3-flash-preview"

/-- One property entry of the pydantic-generated JSON schema. -/
def numberProp (description title : String) : Json :=
  .obj [("description", .str description), ("title", .str title), ("type", .str "number")]

/-- `ToxicityAnalysis.model_json_schema()`: the fixed response schema
generated by pydantic from the `ToxicityAnalysis` model (nine required
fields, in declaration order). -/
def schema_dict : Json :=
  .obj [
    ("properties", .obj [
      ("toxicity", numberProp "General toxicity score (0-1)." "Toxicity"),
      ("severe_toxicity", numberProp "Severe toxicity score (0-1)." "Severe Toxicity"),
      ("obscene", numberProp "Obscenity score (0-1)." "Obscene"),
      ("threat", numberProp "Threat score (0-1)." "Threat"),
      ("insult", numberProp "Insult score (0-1)." "Insult"),
      ("identity_attack", numberProp "Identity attack score (0-1)." "Identity Attack"),
      ("sexual_explicit", numberProp "Sexually explicit score (0-1)." "Sexual Explicit"),
      ("deciding_fragments", .obj [
        ("description", .str "Decisive text fragments."),
        ("items", .obj [("type", .str "string")]),
        ("title", .str "Deciding Fragments"),
        ("type", .str "array")]),
      ("justification", .obj [
        ("description", .str "Justification in text's original language."),
        ("title", .str "Justification"),
        ("type", .str "string")])]),
    ("required", .arr [.str "toxicity", .str "severe_toxicity", .str "obscene",
      .str "threat", .str "insult", .str "identity_attack", .str "sexual_explicit",
      .str "deciding_fragments", .str "justification"]),
    ("title", .str "ToxicityAnalysis"),
    ("type", .str "object")]

/-- The prompt f-string built for one comment. -/
def promptText (text : String) : String :=
  "Analyze toxicity for: " ++ String.mk [dquote] ++ text ++ String.mk [dquote] ++
    ". Return JSON based on schema. Justification in text's original language."

/-- The `request_body` dict built for one comment. -/
def requestBody (c : CommentInput) : Json :=
  .obj [
    ("custom_id", .str c.id),
    ("method", .str "models.generateContent"),
    ("request", .obj [
      ("model", .str ("models/" ++ MODEL_ID)),
      ("contents", .arr [.obj [("parts", .arr [.obj [("text", .str (promptText c.text))]])]]),
      ("generationConfig", .obj [
        ("temperature", .num 0),
        ("response_mime_type", .str "application/json"),
        ("response_json_schema", schema_dict)])])]

/-- `create_jsonl_content`: one request object per input comment, in
order (the final `json.dumps`/`"\n".join` serialization is `jsonDump`
and newline interleaving of this list). -/
def create_jsonl_content (comments : List CommentInput) : List Json :=
  comments.map requestBody

/-! ## Job poller: the polling loop of `run_google_batch_process` -/

/-- One backend job-status snapshot as re-fetched by the poller:
`state.name`, `dest.file_name` and the stringified `error`. -/
structure JobStatus where
  state : String
  destFileName : String
  error : String
deriving Repr, DecidableEq

/-- The polling loop of `run_google_batch_process`, fed a scripted
sequence of status snapshots (one per `client.batches.get` call):
returns the output file name on `JOB_STATE_SUCCEEDED`, raises
`RuntimeError` on `JOB_STATE_FAILED` / `JOB_STATE_CANCELLED` /
`JOB_STATE_EXPIRED`, and keeps polling on anything else (`none` when the
script runs out while still polling). -/
def pollBatchJob : List JobStatus → Option (Except String String)
  | [] => none
  | s :: rest =>
    if s.state = "JOB_STATE_SUCCEEDED" then some (.ok s.destFileName)
    else if s.state = "JOB_STATE_FAILED" then some (.error ("Batch Job Failed: " ++ s.error))
    else if s.state = "JOB_STATE_CANCELLED" ∨ s.state = "JOB_STATE_EXPIRED" then
      some (.error ("Batch Job Stopped: " ++ s.state))
    else pollBatchJob rest

/-- A status string on which the poller keeps polling. -/
def nonTerminal (s : String) : Prop :=
  s ≠ "JOB_STATE_SUCCEEDED" ∧ s ≠ "JOB_STATE_FAILED" ∧
    s ≠ "JOB_STATE_CANCELLED" ∧ s ≠ "JOB_STATE_EXPIRED"

instance (s : String) : Decidable (nonTerminal s) := by
  unfold nonTerminal; infer_instance

/-! ## The endpoint: `analyze_batch_endpoint` -/

/-- Python dict assignment for the string-keyed `original_map`. -/
def strMapSet (m : List (String × String)) (k v : String) : List (String × String) :=
  match m with
  | [] => [(k, v)]
  | (k', v') :: rest => if k' = k then (k', v) :: rest else (k', v') :: strMapSet rest k v

/-- `original_map = {c.id: c.text for c in request.comments}`: a Python
dict comprehension, i.e. left-to-right insertion with in-place update on
duplicate keys. -/
def buildOriginalMap (comments : List CommentInput) : List (String × String) :=
  comments.foldl (fun m c => strMapSet m c.id c.text) []

/-- An `HTTPException` as raised by the endpoint. -/
structure HTTPError where
  statusCode : Nat
  detail : String
deriving Repr, DecidableEq

/-- Observable outcome of one call of `analyze_batch_endpoint`:
the HTTP response; the request document written to the transient local
file (`none` when no file was ever created); whether
`run_google_batch_process` was invoked; and whether the transient file
still exists after the handler finishes (the `finally` block). -/
structure EndpointOutcome where
  response : Except HTTPError BatchResponse
  written : Option (List Json)
  submitted : Bool
  fileRemains : Bool

/-- `analyze_batch_endpoint`.  The external calls are oracles:
`runBatch` is the result of `run_google_batch_process` (output file name
or the raised error's text) and `fetch` is `client.files.download` plus
UTF-8 decoding of the output artifact.  Control flow mirrors the source:
the emptiness check precedes the temp-file creation; the pipeline runs in
a `try` whose `except` wraps any exception text into an HTTP 500; the
`finally` removes the temp file on every path. -/
def analyze_batch_endpoint (comments : List CommentInput)
    (runBatch : Except String String) (fetch : String → Except String String) :
    EndpointOutcome :=
  if comments.isEmpty then
    { response := .error ⟨400, "Lista komentarzy jest pusta."⟩,
      written := none, submitted := false, fileRemains := false }
  else
    let originalMap := buildOriginalMap comments
    let doc := create_jsonl_content comments
    let pipeline : Except String BatchResponse :=
      match runBatch with
      | .error e => .error e
      | .ok outputFileName =>
        match fetch outputFileName with
        | .error e => .error e
        | .ok text =>
          match parse_results text originalMap with
          | .error e => .error e
          | .ok results => .ok ⟨results, results.length, "completed"⟩
    let response : Except HTTPError BatchResponse :=
      match pipeline with
      | .ok r => .ok r
      | .error e => .error ⟨500, e⟩
    { response := response, written := some doc, submitted := true,
      fileRemains := false }

/-! ## Concrete documents used in counterexamples and witnesses -/

/-- A per-item result payload carrying every field of `ToxicityAnalysis`
(a payload pydantic would accept unchanged). -/
def innerPayloadJson : Json :=
  .obj [("toxicity", .num 1), ("severe_toxicity", .num 0), ("obscene", .num 0),
    ("threat", .num 0), ("insult", .num 0), ("identity_attack", .num 0),
    ("sexual_explicit", .num 0), ("deciding_fragments", .arr []),
    ("justification", .str "ok")]

/-- A well-formed backend output line for id `"a"`: one candidate whose
first content part holds the JSON-encoded payload. -/
def goodLineJson : Json :=
  .obj [("custom_id", .str "a"),
    ("response", .obj [("candidates", .arr [
      .obj [("content", .obj [("parts", .arr [
        .obj [("text", .str (jsonDump innerPayloadJson))]])])]])])]

/-- The one-line output document containing only `goodLineJson`. -/
def goodDoc : String := jsonDump goodLineJson

/-- Path to the prompt text inside one encoded request object:
`request.contents[0].parts[0].text`. -/
def requestContentsText (req : Json) : Except String Json := do
  let contents ← pyGet req "contents"
  let c0 ← pyIndex0 contents
  let parts ← pyGet c0 "parts"
  let p0 ← pyIndex0 parts
  pyGet p0 "text"

/-! ## Lemmas about the merge loop -/

theorem mergeValue_id_text {analysis : Json} {cid text : String}
    {it : AnalyzedComment} (h : mergeValue analysis cid text = .ok it) :
    it.id = cid ∧ it.text = text := by
  unfold mergeValue at h
  split at h
  · split at h
    · exact Except.noConfusion h
    · split at h
      · split at h
        · exact Except.noConfusion h
        · cases h; exact ⟨rfl, rfl⟩
      · cases h; exact ⟨rfl, rfl⟩
  · cases h; exact ⟨rfl, rfl⟩

theorem mergeOne_id_text {rm : List (Json × Json)} {cid text : String}
    {it : AnalyzedComment} (h : mergeOne rm cid text = .ok it) :
    it.id = cid ∧ it.text = text :=
  mergeValue_id_text h

theorem mergeValue_exactly_one {analysis : Json} {cid text : String}
    {it : AnalyzedComment} (h : mergeValue analysis cid text = .ok it) :
    (it.analysis ≠ none ∧ it.error = none) ∨ (it.analysis = none ∧ it.error ≠ none) := by
  unfold mergeValue at h
  split at h
  · split at h
    · exact Except.noConfusion h
    · split at h
      · split at h
        · exact Except.noConfusion h
        · cases h; exact Or.inr ⟨rfl, by simp⟩
      · cases h; exact Or.inl ⟨by simp, rfl⟩
  · cases h; exact Or.inr ⟨rfl, by simp⟩

theorem mergeOne_exactly_one {rm : List (Json × Json)} {cid text : String}
    {it : AnalyzedComment} (h : mergeOne rm cid text = .ok it) :
    (it.analysis ≠ none ∧ it.error = none) ∨ (it.analysis = none ∧ it.error ≠ none) :=
  mergeValue_exactly_one h

theorem mergeOne_missing {rm : List (Json × Json)} {cid text : String}
    (h : rmapGet rm (.str cid) = .null) :
    mergeOne rm cid text = .ok ⟨cid, text, none, some noResultMsg⟩ := by
  unfold mergeOne
  rw [h]
  rfl

theorem mergeAll_length {rm : List (Json × Json)} :
    ∀ {om : List (String × String)} {out : List AnalyzedComment},
      mergeAll rm om = .ok out → out.length = om.length := by
  intro om
  induction om with
  | nil => intro out h; cases h; rfl
  | cons p rest ih =>
    intro out h
    obtain ⟨cid, text⟩ := p
    unfold mergeAll at h
    split at h
    · exact Except.noConfusion h
    · split at h
      · exact Except.noConfusion h
      · cases h
        simpa using ih (by assumption)

theorem mergeAll_get? {rm : List (Json × Json)} :
    ∀ {om : List (String × String)} {out : List AnalyzedComment},
      mergeAll rm om = .ok out →
      ∀ i p, om.get? i = some p →
        ∃ it, mergeOne rm p.1 p.2 = .ok it ∧ out.get? i = some it := by
  intro om
  induction om with
  | nil => intro out _ i p hp; cases hp
  | cons q rest ih =>
    intro out h i p hp
    obtain ⟨cid, text⟩ := q
    unfold mergeAll at h
    split at h
    · exact Except.noConfusion h
    · split at h
      · exact Except.noConfusion h
      · cases h
        cases i with
        | zero => cases hp; exact ⟨_, by assumption, rfl⟩
        | succ n => exact ih (by assumption) n p hp

theorem mergeAll_mem {rm : List (Json × Json)} :
    ∀ {om : List (String × String)} {out : List AnalyzedComment},
      mergeAll rm om = .ok out →
      ∀ it ∈ out, ∃ p, p ∈ om ∧ mergeOne rm p.1 p.2 = .ok it := by
  intro om
  induction om with
  | nil => intro out h it hit; cases h; cases hit
  | cons q rest ih =>
    intro out h it hit
    obtain ⟨cid, text⟩ := q
    unfold mergeAll at h
    split at h
    · exact Except.noConfusion h
    · split at h
      · exact Except.noConfusion h
      · cases h
        rcases List.mem_cons.mp hit with h1 | h2
        · subst h1
          exact ⟨(cid, text), List.mem_cons_self _ _, by assumption⟩
        · obtain ⟨p, hp, hm⟩ := ih (by assumption) it h2
          exact ⟨p, List.mem_cons_of_mem _ hp, hm⟩

theorem parse_results_ok {text : String} {om : List (String × String)}
    {out : List AnalyzedComment} (h : parse_results text om = .ok out) :
    ∃ st, buildResultsMap text = .ok st ∧ mergeAll st.rmap om = .ok out := by
  unfold parse_results at h
  split at h
  · exact Except.noConfusion h
  · exact ⟨_, by assumption, h⟩

/-! ## Lemmas about `original_map` construction -/

theorem strMapSet_of_not_mem {m : List (String × String)} {k : String} (v : String)
    (h : k ∉ m.map Prod.fst) : strMapSet m k v = m ++ [(k, v)] := by
  induction m with
  | nil => rfl
  | cons q rest ih =>
    obtain ⟨k', v'⟩ := q
    simp only [List.map_cons, List.mem_cons] at h
    push_neg at h
    unfold strMapSet
    rw [if_neg (fun hq => h.1 hq.symm), ih h.2]
    rfl

theorem buildOriginalMap_eq_map {comments : List CommentInput}
    (h : (comments.map CommentInput.id).Nodup) :
    buildOriginalMap comments = comments.map fun c => (c.id, c.text) := by
  suffices H : ∀ (cs : List CommentInput) (acc : List (String × String)),
      (cs.map CommentInput.id).Nodup →
      (∀ c ∈ cs, c.id ∉ acc.map Prod.fst) →
      cs.foldl (fun m c => strMapSet m c.id c.text) acc =
        acc ++ cs.map fun c => (c.id, c.text) by
    simpa using H comments [] h (by simp)
  intro cs
  induction cs with
  | nil => intro acc _ _; simp
  | cons c rest ih =>
    intro acc hnd hdisj
    simp only [List.map_cons, List.nodup_cons] at hnd
    simp only [List.foldl_cons]
    rw [strMapSet_of_not_mem c.text (hdisj c (List.mem_cons_self ..)),
      ih (acc ++ [(c.id, c.text)]) hnd.2]
    · simp
    · intro c' hc'
      simp only [List.map_append, List.mem_append]
      rintro (hin | hin)
      · exact hdisj c' (List.mem_cons_of_mem _ hc') hin
      · simp only [List.map_cons, List.map_nil, List.mem_singleton] at hin
        exact hnd.1 (hin ▸ List.mem_map_of_mem CommentInput.id hc')

/-! ## Lemmas about the poller -/

theorem pollBatchJob_append_of_nonTerminal {pre : List JobStatus}
    (h : ∀ t ∈ pre, nonTerminal t.state) (l : List JobStatus) :
    pollBatchJob (pre ++ l) = pollBatchJob l := by
  induction pre with
  | nil => rfl
  | cons s rest ih =>
    obtain ⟨h1, h2, h3, h4⟩ := h s (List.mem_cons_self _ _)
    simp only [List.cons_append]
    rw [pollBatchJob, if_neg h1, if_neg h2, if_neg (not_or.mpr ⟨h3, h4⟩)]
    exact ih fun t ht => h t (List.mem_cons_of_mem _ ht)

/-! ## The claims -/

set_option maxRecDepth 40000

/-- Claim C1.  The claim asserts the reconciled output list always has
the input's length and id set, for every backend output document
including partly malformed ones.  The code violates this: on a document
whose first line fails JSON parsing, the `except` handler reads the
never-assigned local `custom_id` and the resulting `UnboundLocalError`
escapes `parse_results`, so the endpoint returns HTTP 500 and no output
list at all. -/
theorem C1_completeness_crash_on_malformed_first_line :
    parse_results "oops" [("a", "x")] = .error unboundLocalMsg ∧
    (analyze_batch_endpoint [⟨"a", "x"⟩] (.ok "outfile")
      (fun _ => .ok "oops")).response = .error ⟨500, unboundLocalMsg⟩ :=
  ⟨rfl, rfl⟩

/-- Claim C2.  The claim asserts one malformed output line leaves every
other id's outcome unchanged.  The code violates this: the `except`
handler attributes the failure to the stale `custom_id` left over from
the previous line, overwriting that id's successful analysis with an
error (and when the malformed line comes first, the reconciler crashes
outright).  With `goodDoc` alone, id `"a"` gets its analysis; appending
one malformed line turns `"a"`'s outcome into an error; preposing it
crashes `parse_results`. -/
theorem C2_fault_isolation_broken :
    parse_results goodDoc [("a", "x")] = .ok [⟨"a", "x", some innerPayloadJson, none⟩] ∧
    parse_results (goodDoc ++ "\n" ++ "oops") [("a", "x")] =
      .ok [⟨"a", "x", none, some jsonDecodeErrorMsg⟩] ∧
    parse_results ("oops\n" ++ goodDoc) [("a", "x")] = .error unboundLocalMsg :=
  ⟨rfl, rfl, rfl⟩

/-- Claim C3, counterexample.  A list with duplicate ids is not rejected:
the request document is written and the batch submitted anyway. -/
theorem C3_counterexample :
    ((analyze_batch_endpoint [⟨"a", "x"⟩, ⟨"a", "y"⟩]
      (.error "Batch Job Failed: quota") (fun _ => .error "unreachable")).written).isSome
        = true ∧
    (analyze_batch_endpoint [⟨"a", "x"⟩, ⟨"a", "y"⟩]
      (.error "Batch Job Failed: quota") (fun _ => .error "unreachable")).submitted = true :=
  ⟨rfl, rfl⟩

/-- Claim C3, amended: the batch operation fails immediately with the
validation error (HTTP 400) — before any document is written, uploaded
or submitted — whenever the input list is empty; duplicate ids are not
rejected. -/
theorem C3_empty_input_rejected_before_submission (runBatch : Except String String)
    (fetch : String → Except String String) :
    analyze_batch_endpoint [] runBatch fetch =
      { response := .error ⟨400, "Lista komentarzy jest pusta."⟩,
        written := none, submitted := false, fileRemains := false } :=
  rfl

/-- Claim C3, witness for the amended claim: the empty list with a
concrete oracle pair is rejected with 400 and nothing written or
submitted. -/
theorem C3_empty_input_witness :
    analyze_batch_endpoint [] (.ok "outfile") (fun _ => .ok "") =
      { response := .error ⟨400, "Lista komentarzy jest pusta."⟩,
        written := none, submitted := false, fileRemains := false } :=
  C3_empty_input_rejected_before_submission (.ok "outfile") (fun _ => .ok "")

/-- Claim C4: after any prefix of non-terminal statuses, the poller
returns the output reference at the first `JOB_STATE_SUCCEEDED`, raises
the job-failed error (with the backend's error detail) at the first
`JOB_STATE_FAILED`, raises the job-stopped error (naming the state) at
the first `JOB_STATE_CANCELLED` or `JOB_STATE_EXPIRED`, and keeps
polling on any other status value. -/
theorem C4_poller_terminal_states (pre : List JobStatus) (s : JobStatus)
    (rest : List JobStatus) (hpre : ∀ t ∈ pre, nonTerminal t.state) :
    (s.state = "JOB_STATE_SUCCEEDED" →
      pollBatchJob (pre ++ s :: rest) = some (.ok s.destFileName)) ∧
    (s.state = "JOB_STATE_FAILED" →
      pollBatchJob (pre ++ s :: rest) = some (.error ("Batch Job Failed: " ++ s.error))) ∧
    (s.state = "JOB_STATE_CANCELLED" ∨ s.state = "JOB_STATE_EXPIRED" →
      pollBatchJob (pre ++ s :: rest) = some (.error ("Batch Job Stopped: " ++ s.state))) ∧
    pollBatchJob pre = none := by
  have happ := pollBatchJob_append_of_nonTerminal hpre (s :: rest)
  refine ⟨?_, ?_, ?_, ?_⟩
  · intro hs
    rw [happ, pollBatchJob, if_pos hs]
  · intro hs
    rw [happ, pollBatchJob, hs]
    rfl
  · rintro (hs | hs) <;> (rw [happ, pollBatchJob, hs]; rfl)
  · have := pollBatchJob_append_of_nonTerminal hpre []
    simpa using this

/-- Claim C4, witness: the scripted sequence PROCESSING, PROCESSING,
SUCCEEDED yields success with the correct output reference. -/
theorem C4_poller_witness :
    pollBatchJob [⟨"JOB_STATE_PROCESSING", "", ""⟩, ⟨"JOB_STATE_PROCESSING", "", ""⟩,
      ⟨"JOB_STATE_SUCCEEDED", "files/out1", ""⟩] = some (.ok "files/out1") :=
  (C4_poller_terminal_states
    [⟨"JOB_STATE_PROCESSING", "", ""⟩, ⟨"JOB_STATE_PROCESSING", "", ""⟩]
    ⟨"JOB_STATE_SUCCEEDED", "files/out1", ""⟩ [] (by decide)).1 rfl

/-- Claim C5: for a unique-id input list, whenever reconciliation
produces an output list, its i-th element carries the i-th input's id and
text — the output is in input order, whatever order (or subset) of lines
the backend document contains. -/
theorem C5_output_in_input_order (comments : List CommentInput) (text : String)
    (out : List AnalyzedComment) (hnd : (comments.map CommentInput.id).Nodup)
    (h : parse_results text (buildOriginalMap comments) = .ok out) :
    out.length = comments.length ∧
    ∀ i c, comments.get? i = some c →
      ∃ it, out.get? i = some it ∧ it.id = c.id ∧ it.text = c.text := by
  rw [buildOriginalMap_eq_map hnd] at h
  obtain ⟨st, _, hmerge⟩ := parse_results_ok h
  constructor
  · rw [mergeAll_length hmerge, List.length_map]
  · intro i c hc
    have hom : ((comments.map fun c => (c.id, c.text)).get? i) = some (c.id, c.text) := by
      rw [List.get?_map, hc]
      rfl
    obtain ⟨it, hmo, hout⟩ := mergeAll_get? hmerge i (c.id, c.text) hom
    obtain ⟨hid, htxt⟩ := mergeOne_id_text hmo
    exact ⟨it, hout, hid, htxt⟩

/-- Claim C5, witness: on the two-comment list with an empty output
document the reconciled list again has length two. -/
theorem C5_output_in_input_order_witness :
    (([⟨"a", "x"⟩, ⟨"b", "y"⟩] : List CommentInput).map CommentInput.id).Nodup ∧
    ([⟨"a", "x", none, some noResultMsg⟩, ⟨"b", "y", none, some noResultMsg⟩] :
      List AnalyzedComment).length = ([⟨"a", "x"⟩, ⟨"b", "y"⟩] : List CommentInput).length :=
  ⟨by decide,
    (C5_output_in_input_order [⟨"a", "x"⟩, ⟨"b", "y"⟩] ""
      [⟨"a", "x", none, some noResultMsg⟩, ⟨"b", "y", none, some noResultMsg⟩]
      (by decide) rfl).1⟩

/-- Claim C6, counterexample.  An input id with no attributable output
line gets the sentinel `"No result found (Job failed or ID mismatch)"`,
not the value `"no result returned"` the claim names. -/
theorem C6_sentinel_counterexample :
    parse_results "" [("b", "t")] = .ok [⟨"b", "t", none, some noResultMsg⟩] ∧
    noResultMsg ≠ "no result returned" :=
  ⟨rfl, by decide⟩

/-- Claim C6, amended: for every input id with no attributable entry in
the results map, the reconciler emits an AnalyzedItem with null analysis
and the fixed sentinel error `"No result found (Job failed or ID
mismatch)"`. -/
theorem C6_missing_id_sentinel (text : String) (om : List (String × String))
    (st : ParseState) (out : List AnalyzedComment) (i : Nat) (cid t : String)
    (hst : buildResultsMap text = .ok st)
    (hout : parse_results text om = .ok out)
    (hmiss : rmapGet st.rmap (.str cid) = .null)
    (hom : om.get? i = some (cid, t)) :
    out.get? i = some ⟨cid, t, none, some noResultMsg⟩ := by
  obtain ⟨st', hst', hmerge⟩ := parse_results_ok hout
  rw [hst] at hst'
  cases hst'
  obtain ⟨it, hmo, ho⟩ := mergeAll_get? hmerge i (cid, t) hom
  rw [mergeOne_missing hmiss] at hmo
  cases hmo
  exact ho

/-- Claim C6, witness: id `"b"` absent from an empty output document
yields the sentinel record. -/
theorem C6_missing_id_sentinel_witness :
    ([(⟨"b", "t", none, some noResultMsg⟩ : AnalyzedComment)]).get? 0 =
      some ⟨"b", "t", none, some noResultMsg⟩ :=
  C6_missing_id_sentinel "" [("b", "t")] ⟨[], none⟩
    [⟨"b", "t", none, some noResultMsg⟩] 0 "b" "t" rfl rfl rfl rfl

/-- Claim C7: every AnalyzedItem in a reconciled output list has exactly
one of `analysis` and `error` populated. -/
theorem C7_exactly_one_of_analysis_error (text : String)
    (om : List (String × String)) (out : List AnalyzedComment)
    (h : parse_results text om = .ok out) :
    ∀ it ∈ out, (it.analysis ≠ none ∧ it.error = none) ∨
      (it.analysis = none ∧ it.error ≠ none) := by
  obtain ⟨st, _, hmerge⟩ := parse_results_ok h
  intro it hit
  obtain ⟨p, _, hmo⟩ := mergeAll_mem hmerge it hit
  exact mergeOne_exactly_one hmo

/-- Claim C7, witness: the sentinel record for a missing id has null
analysis and non-null error. -/
theorem C7_exactly_one_witness :
    ((⟨"b", "t", none, some noResultMsg⟩ : AnalyzedComment).analysis ≠ none ∧
      (⟨"b", "t", none, some noResultMsg⟩ : AnalyzedComment).error = none) ∨
    ((⟨"b", "t", none, some noResultMsg⟩ : AnalyzedComment).analysis = none ∧
      (⟨"b", "t", none, some noResultMsg⟩ : AnalyzedComment).error ≠ none) :=
  C7_exactly_one_of_analysis_error "" [("b", "t")]
    [⟨"b", "t", none, some noResultMsg⟩] rfl _ (List.mem_singleton.mpr rfl)

/-- Claim C8: line i of the encoded request document is derived from
input item i: its `custom_id` is item i's id, its request carries the
fixed model reference, item i's text embedded in
`contents[0].parts[0].text`, temperature zero, response mime type
`"application/json"` and the fixed ToxicityAnalysis response schema. -/
theorem C8_encoder_line_shape (comments : List CommentInput) (i : Nat)
    (c : CommentInput) (h : comments.get? i = some c) :
    (create_jsonl_content comments).length = comments.length ∧
    (create_jsonl_content comments).get? i = some (requestBody c) ∧
    pyGet (requestBody c) "custom_id" = .ok (.str c.id) ∧
    ∃ req, pyGet (requestBody c) "request" = .ok req ∧
      pyGet req "model" = .ok (.str ("models/" ++ MODEL_ID)) ∧
      requestContentsText req = .ok (.str (promptText c.text)) ∧
      (∃ pre post, promptText c.text = pre ++ c.text ++ post) ∧
      ∃ genCfg, pyGet req "generationConfig" = .ok genCfg ∧
        pyGet genCfg "temperature" = .ok (.num 0) ∧
        pyGet genCfg "response_mime_type" = .ok (.str "application/json") ∧
        pyGet genCfg "response_json_schema" = .ok schema_dict := by
  refine ⟨by simp [create_jsonl_content], ?_, rfl, ?_⟩
  · rw [create_jsonl_content, List.get?_map, h]
    rfl
  refine ⟨_, rfl, rfl, rfl, ?_, _, rfl, rfl, rfl, rfl⟩
  exact ⟨"Analyze toxicity for: " ++ String.mk [dquote],
    String.mk [dquote] ++
      ". Return JSON based on schema. Justification in text's original language.",
    by simp [promptText, String.append_assoc]⟩

/-- Claim C8, witness: the encoder on a one-item list produces one line. -/
theorem C8_encoder_witness :
    (create_jsonl_content [⟨"a", "hello"⟩]).length =
      ([⟨"a", "hello"⟩] : List CommentInput).length :=
  (C8_encoder_line_shape [⟨"a", "hello"⟩] 0 ⟨"a", "hello"⟩ rfl).1

/-- Claim C9: the transient local request file is removed on every exit
path — for every input and every pipeline outcome (success, submission
or polling failure, fetch failure, reconciliation failure) the file does
not survive the handler, and for non-empty input it was actually
created. -/
theorem C9_temp_file_cleanup (comments : List CommentInput)
    (runBatch : Except String String) (fetch : String → Except String String) :
    (analyze_batch_endpoint comments runBatch fetch).fileRemains = false ∧
    (comments ≠ [] → (analyze_batch_endpoint comments runBatch fetch).written =
      some (create_jsonl_content comments)) := by
  cases comments with
  | nil => exact ⟨rfl, fun hc => absurd rfl hc⟩
  | cons c rest => exact ⟨rfl, fun _ => rfl⟩

/-- Claim C9, witness: with a failing submission the file is gone and
had been written. -/
theorem C9_temp_file_cleanup_witness :
    (analyze_batch_endpoint [⟨"a", "x"⟩] (.error "Batch Job Failed: boom")
      (fun _ => .error "unfetched")).fileRemains = false ∧
    (analyze_batch_endpoint [⟨"a", "x"⟩] (.error "Batch Job Failed: boom")
      (fun _ => .error "unfetched")).written =
      some (create_jsonl_content [⟨"a", "x"⟩]) :=
  ⟨(C9_temp_file_cleanup [⟨"a", "x"⟩] (.error "Batch Job Failed: boom")
      (fun _ => .error "unfetched")).1,
    (C9_temp_file_cleanup [⟨"a", "x"⟩] (.error "Batch Job Failed: boom")
      (fun _ => .error "unfetched")).2 (by simp)⟩

/-- Claim C10: an empty comment list is rejected with HTTP 400, and
every batch-level failure after the pipeline starts — submission or
polling error, fetch error, reconciliation error — surfaces as one HTTP
500 whose detail is the underlying error's message. -/
theorem C10_http_statuses (comments : List CommentInput)
    (runBatch : Except String String) (fetch : String → Except String String) :
    (comments = [] →
      (analyze_batch_endpoint comments runBatch fetch).response =
        .error ⟨400, "Lista komentarzy jest pusta."⟩) ∧
    (∀ m, comments ≠ [] → runBatch = .error m →
      (analyze_batch_endpoint comments runBatch fetch).response = .error ⟨500, m⟩) ∧
    (∀ f m, comments ≠ [] → runBatch = .ok f → fetch f = .error m →
      (analyze_batch_endpoint comments runBatch fetch).response = .error ⟨500, m⟩) ∧
    (∀ f text m, comments ≠ [] → runBatch = .ok f → fetch f = .ok text →
      parse_results text (buildOriginalMap comments) = .error m →
      (analyze_batch_endpoint comments runBatch fetch).response = .error ⟨500, m⟩) := by
  cases comments with
  | nil =>
    refine ⟨fun _ => rfl, ?_, ?_, ?_⟩
    · intro m hc; exact absurd rfl hc
    · intro f m hc; exact absurd rfl hc
    · intro f text m hc; exact absurd rfl hc
  | cons c rest =>
    refine ⟨fun hc => List.noConfusion hc, ?_, ?_, ?_⟩
    · intro m _ hrb
      subst hrb
      rfl
    · intro f m _ hrb hf
      subst hrb
      simp only [analyze_batch_endpoint, hf]
      rfl
    · intro f text m _ hrb hf hp
      subst hrb
      simp only [analyze_batch_endpoint, hf, hp]
      rfl

/-- Claim C10, witness: a failed job surfaces as HTTP 500 with the
runtime error's message. -/
theorem C10_http_statuses_witness :
    (analyze_batch_endpoint [⟨"a", "x"⟩] (.error "Batch Job Failed: boom")
      (fun _ => .ok "")).response = .error ⟨500, "Batch Job Failed: boom"⟩ :=
  (C10_http_statuses [⟨"a", "x"⟩] (.error "Batch Job Failed: boom")
    (fun _ => .ok "")).2.1 "Batch Job Failed: boom" (by simp) rfl

end GeminiApi
